import Mathlib

/-
  Verification of the air-quality service's fusion engine, adapter health
  tracker, PurpleAir PM2.5 conversion, and forecast aggregator.

  Shallow embedding conventions:
  - Python floats are modelled as exact rationals (ℚ); machine integers as ℤ/ℕ.
  - datetime instants are modelled as integers (seconds); timedelta(hours=h)
    is h * 3600 seconds.
  - Python's built-in round() is banker's rounding (round half to even); it is
    modelled exactly by pyRound below.
  - Optional / nullable values are modelled with Option.
  - Database side effects (cache writes, stored rows) are modelled as explicit
    return values; functions are considered on the cache-miss path, and
    logging (a best-effort side effect) is not modelled.
-/

namespace AirQuality

/-- Python's round() on an exact rational: round half to even
(apps are Python 3, where round(0.5) = 0, round(1.5) = 2, round(-0.5) = 0). -/
def pyRound (x : ℚ) : ℤ :=
  if x - ⌊x⌋ < 1/2 then ⌊x⌋
  else if 1/2 < x - ⌊x⌋ then ⌊x⌋ + 1
  else if ⌊x⌋ % 2 = 0 then ⌊x⌋ else ⌊x⌋ + 1

/-- Python's round(x, n): round half to even at the n-th decimal place. -/
def pyRoundTo (n : ℕ) (x : ℚ) : ℚ :=
  (pyRound (x * 10 ^ n) : ℚ) / 10 ^ n

/-- Modelled from the spec: rounding half away from zero, the rounding mode the
spec claims for the blended AQI.  Used only to compare the spec's words with
the code's actual rounding. -/
def specRoundHalfAwayFromZero (x : ℚ) : ℤ :=
  if 0 ≤ x then ⌊x + 1/2⌋ else ⌈x - 1/2⌉

theorem floor_le_pyRound (x : ℚ) : ⌊x⌋ ≤ pyRound x := by
  unfold pyRound
  split_ifs <;> omega

theorem pyRound_le_floor_add_one (x : ℚ) : pyRound x ≤ ⌊x⌋ + 1 := by
  unfold pyRound
  split_ifs <;> omega

theorem pyRound_intCast (n : ℤ) : pyRound (n : ℚ) = n := by
  unfold pyRound
  have h0 : ⌊(n : ℚ)⌋ = n := Int.floor_intCast n
  rw [h0]
  norm_num

theorem pyRound_mono {x y : ℚ} (h : x ≤ y) : pyRound x ≤ pyRound y := by
  have hf : ⌊x⌋ ≤ ⌊y⌋ := Int.floor_le_floor h
  rcases lt_or_eq_of_le hf with hlt | heq
  · calc pyRound x ≤ ⌊x⌋ + 1 := pyRound_le_floor_add_one x
      _ ≤ ⌊y⌋ := by omega
      _ ≤ pyRound y := floor_le_pyRound y
  · unfold pyRound
    rw [← heq]
    split_ifs <;> first | omega | linarith

theorem pyRound_le_of_le_int {x : ℚ} {n : ℤ} (h : x ≤ (n : ℚ)) : pyRound x ≤ n := by
  calc pyRound x ≤ pyRound (n : ℚ) := pyRound_mono h
    _ = n := pyRound_intCast n

theorem int_le_pyRound_of_le {x : ℚ} {n : ℤ} (h : (n : ℚ) ≤ x) : n ≤ pyRound x := by
  calc n = pyRound (n : ℚ) := (pyRound_intCast n).symm
    _ ≤ pyRound x := pyRound_mono h

/-- Canonical measurement record (apps/adapters/models.py, SourceData).
Timestamps are seconds; a None station name and the empty string are both
possible values of the CharField / constructor argument. -/
structure SourceData where
  source : String
  lat : ℚ
  lon : ℚ
  timestamp : ℤ
  aqi : Option ℤ
  pollutants : List (String × Option ℚ)
  qualityLevel : String
  distanceKm : Option ℚ
  confidenceScore : Option ℚ
  stationName : Option String
deriving DecidableEq, Repr

/-- AQI category row (apps/core/constants.py). -/
structure AqiCategory where
  scale : String
  minValue : ℤ
  maxValue : ℤ
  category : String
  colorHex : String
  healthMessage : String
  sensitiveGroups : String
deriving DecidableEq, Repr

/-- EPA_AQI_CATEGORIES from apps/core/constants.py (health messages elided to
short markers; only min, max and category names are used by the code under
verification). -/
def EPA_AQI_CATEGORIES : List AqiCategory :=
  [ ⟨"EPA", 0, 50, "Good", "#00E400", "good-msg", ""⟩,
    ⟨"EPA", 51, 100, "Moderate", "#FFFF00", "moderate-msg", "Unusually sensitive people"⟩,
    ⟨"EPA", 101, 150, "Unhealthy for Sensitive Groups", "#FF7E00", "usg-msg", "sensitive-groups"⟩,
    ⟨"EPA", 151, 200, "Unhealthy", "#FF0000", "unhealthy-msg", "everyone-sensitive"⟩,
    ⟨"EPA", 201, 300, "Very Unhealthy", "#99004C", "very-unhealthy-msg", "Everyone"⟩,
    ⟨"EPA", 301, 500, "Hazardous", "#7E0023", "hazardous-msg", "Everyone"⟩ ]

/-- AQHI_CATEGORIES from apps/core/constants.py. -/
def AQHI_CATEGORIES : List AqiCategory :=
  [ ⟨"AQHI", 1, 3, "Low Risk", "#00CCFF", "low-msg", ""⟩,
    ⟨"AQHI", 4, 6, "Moderate Risk", "#FFFF00", "moderate-risk-msg", "heart-breathing"⟩,
    ⟨"AQHI", 7, 10, "High Risk", "#FF7E00", "high-risk-msg", "children-elderly"⟩,
    ⟨"AQHI", 10, 15, "Very High Risk", "#FF0000", "very-high-risk-msg", "everyone-sensitive"⟩ ]

/-- convert_aqi_to_category (apps/core/utils.py): first category whose
range contains the AQI value, None when none matches. -/
def convertAqiToCategory (aqi : ℤ) (scale : String) : Option AqiCategory :=
  let categories := if scale = "EPA" then EPA_AQI_CATEGORIES else AQHI_CATEGORIES
  categories.find? (fun c => c.minValue ≤ aqi && aqi ≤ c.maxValue)

/-- is_data_fresh (apps/core/utils.py): age strictly below the maximum
age, with the age measured in seconds against the current clock. -/
def isDataFresh (now ts maxAgeHours : ℤ) : Bool :=
  decide (now - ts < maxAgeHours * 3600)

/-- The AIR_QUALITY_SETTINGS the fusion engine reads (config defaults). -/
structure FusionConfig where
  maxDataAgeHours : ℤ := 3
  responseCacheTtl : ℤ := 600
deriving DecidableEq, Repr

/-- FusionEngine._blend_aqi (apps/fusion/engine.py): one pass over the
weighted measurements accumulating the weighted sum and total weight of
the measurements whose aqi is not None, then the (Python-) rounded
quotient, or 0 when the total weight is 0. -/
def blendAqi (ws : List (SourceData × ℚ)) : ℤ :=
  let acc := ws.foldl
    (fun (acc : ℚ × ℚ) p =>
      match p.1.aqi with
      | some a => (acc.1 + (a : ℚ) * p.2, acc.2 + p.2)
      | none => acc)
    (0, 0)
  if acc.2 = 0 then 0 else pyRound (acc.1 / acc.2)

/-- The per-pollutant accumulation loop of FusionEngine._blend_pollutants,
restricted to one pollutant key: sum of value * weight and sum of weight
over the measurements that report that key with a non-None value. -/
def pollutantSums (ws : List (SourceData × ℚ)) (key : String) : ℚ × ℚ :=
  ws.foldl
    (fun acc p =>
      p.1.pollutants.foldl
        (fun (acc2 : ℚ × ℚ) kv =>
          if kv.1 = key then
            match kv.2 with
            | some v => (acc2.1 + v * p.2, acc2.2 + p.2)
            | none => acc2
          else acc2)
        acc)
    (0, 0)

/-- FusionEngine._blend_pollutants as a finite map: a pollutant key maps to
the weighted average rounded to 2 decimals when its accumulated weight is
positive, and is absent otherwise (Python dict equality ignores key order,
so the dict is modelled as a function). -/
def blendPollutants (ws : List (SourceData × ℚ)) : String → Option ℚ :=
  fun key =>
    let s := pollutantSums ws key
    if 0 < s.2 then some (pyRoundTo 2 (s.1 / s.2)) else none

/-- One row of FusionEngine._get_source_details. -/
structure SourceDetail where
  source : String
  weight : ℚ
  aqi : Option ℤ
  distanceKm : Option ℚ
  timestamp : ℤ
  qualityLevel : String
  stationName : Option String
deriving DecidableEq, Repr

/-- Builds one source_details row: weight rounded to 3 decimals, and the
Python expression (station_name or None) collapsing the empty string to None. -/
def mkSourceDetail (p : SourceData × ℚ) : SourceDetail :=
  { source := p.1.source
    weight := pyRoundTo 3 p.2
    aqi := p.1.aqi
    distanceKm := p.1.distanceKm
    timestamp := p.1.timestamp
    qualityLevel := p.1.qualityLevel
    stationName := match p.1.stationName with
      | some "" => none
      | s => s }

/-- Stable insertion into a weight-descending list: the new element goes in
front of the first strictly lighter element, as Python's stable sort with
reverse=True would place it. -/
def insertByWeightDesc (d : SourceDetail) : List SourceDetail → List SourceDetail
  | [] => [d]
  | e :: es => if e.weight ≤ d.weight then d :: e :: es else e :: insertByWeightDesc d es

/-- The sort in FusionEngine._get_source_details: list.sort(key=weight,
reverse=True), which is a stable descending sort. -/
def sortByWeightDesc : List SourceDetail → List SourceDetail
  | [] => []
  | d :: ds => insertByWeightDesc d (sortByWeightDesc ds)

/-- Python's max() over the mapped timestamps (None models the empty list,
on which Python max raises; blend only evaluates it on non-empty input). -/
def maxTimestampStep (t : ℤ) (acc : Option ℤ) : Option ℤ :=
  match acc with
  | none => some t
  | some u => some (max t u)

/-- max(sd.timestamp for sd, _ in weighted_sources). -/
def maxTimestamp (ws : List (SourceData × ℚ)) : Option ℤ :=
  (ws.map (fun p => p.1.timestamp)).foldr maxTimestampStep none

/-- The current block of the blended response. -/
structure CurrentBlock where
  aqi : Option ℤ
  category : String
  pollutants : String → Option ℚ
  sources : Finset String
  lastUpdated : Option ℤ

/-- The dict returned by FusionEngine.blend.  The default (unavailable)
response carries an error string and no source_details key; both response
shapes are modelled by one record with error : Option String and an empty
details list for the default. -/
structure BlendResponse where
  lat : ℚ
  lon : ℚ
  current : CurrentBlock
  sourceDetails : List SourceDetail
  error : Option String

/-- The BlendedData cache row written by FusionEngine._save_to_cache. -/
structure CacheEntry where
  currentAqi : ℤ
  category : String
  pollutants : String → Option ℚ
  sources : Finset String
  sourceCount : ℕ
  cachedUntil : ℤ

/-- FusionEngine._get_default_response. -/
def defaultResponse (lat lon : ℚ) (now : ℤ) : BlendResponse :=
  { lat := lat
    lon := lon
    current :=
      { aqi := none
        category := "Unavailable"
        pollutants := fun _ => none
        sources := ∅
        lastUpdated := some now }
    sourceDetails := []
    error := some "No fresh air quality data available for this location" }

/-- The non-empty branch of FusionEngine.blend, applied to the fresh data. -/
def blendMain (cfg : FusionConfig) (w : SourceData → ℚ) (now : ℤ) (lat lon : ℚ)
    (freshData : List SourceData) : BlendResponse × Option CacheEntry :=
    let weightedSources := freshData.map (fun sd => (sd, w sd))
    let blendedAqi := blendAqi weightedSources
    let blendedPollutants := blendPollutants weightedSources
    let category :=
      match convertAqiToCategory blendedAqi "EPA" with
      | some c => c.category
      | none => "Unknown"
    let sourcesUsed := (weightedSources.map (fun p => p.1.source)).toFinset
    let result : BlendResponse :=
      { lat := lat
        lon := lon
        current :=
          { aqi := some blendedAqi
            category := category
            pollutants := blendedPollutants
            sources := sourcesUsed
            lastUpdated := maxTimestamp weightedSources }
        sourceDetails := sortByWeightDesc (weightedSources.map mkSourceDetail)
        error := none }
    let entry : CacheEntry :=
      { currentAqi := blendedAqi
        category := category
        pollutants := blendedPollutants
        sources := sourcesUsed
        sourceCount := sourcesUsed.card
        cachedUntil := now + cfg.responseCacheTtl }
    (result, some entry)

/-- FusionEngine.blend on the cache-miss path.  The weight oracle w stands
for self._calculate_weight(source_data, region_code, lat, lon), which the
engine evaluates independently per measurement against the fixed
configuration, region and clock.  The second component is the cache write
performed by _save_to_cache (none = nothing cached). -/
def blend (cfg : FusionConfig) (w : SourceData → ℚ) (now : ℤ) (lat lon : ℚ)
    (sourceDataList : List SourceData) : BlendResponse × Option CacheEntry :=
  if (sourceDataList.filter
      fun sd => isDataFresh now sd.timestamp cfg.maxDataAgeHours).isEmpty then
    (defaultResponse lat lon now, none)
  else
    blendMain cfg w now lat lon
      (sourceDataList.filter fun sd => isDataFresh now sd.timestamp cfg.maxDataAgeHours)

/-- AdapterStatus row (apps/adapters/models.py), the fields touched by
BaseAdapter._update_status. -/
structure AdapterStatus where
  isActive : Bool
  consecutiveFailures : ℕ
  totalRequests : ℕ
  totalFailures : ℕ
  lastSuccessAt : Option ℤ
  lastFailureAt : Option ℤ
  statusMessage : String
deriving DecidableEq, Repr

/-- The row created by get_or_create(source=..., defaults=dict(is_active=True))
together with the model field defaults. -/
def initialAdapterStatus : AdapterStatus :=
  { isActive := true
    consecutiveFailures := 0
    totalRequests := 0
    totalFailures := 0
    lastSuccessAt := none
    lastFailureAt := none
    statusMessage := "" }

/-- BaseAdapter._update_status (apps/adapters/base.py): bump total_requests,
then either reset or advance the failure counters, then auto-disable when
consecutive_failures has reached 10. -/
def updateStatus (s : AdapterStatus) (success : Bool) (now : ℤ)
    (errorMessage : String) : AdapterStatus :=
  let s1 := { s with totalRequests := s.totalRequests + 1 }
  let s2 :=
    if success then
      { s1 with lastSuccessAt := some now, consecutiveFailures := 0 }
    else
      { s1 with
          lastFailureAt := some now
          consecutiveFailures := s1.consecutiveFailures + 1
          totalFailures := s1.totalFailures + 1
          statusMessage := errorMessage }
  if 10 ≤ s2.consecutiveFailures then { s2 with isActive := false } else s2

/-- The adapter-health states reachable from the freshly created row by any
sequence of recorded successes and failures. -/
inductive ReachableStatus : AdapterStatus → Prop
  | init : ReachableStatus initialAdapterStatus
  | step (s : AdapterStatus) (success : Bool) (now : ℤ) (msg : String) :
      ReachableStatus s → ReachableStatus (updateStatus s success now msg)

/-- n consecutive recorded failures starting from the fresh row. -/
def failNTimes : ℕ → AdapterStatus
  | 0 => initialAdapterStatus
  | n + 1 => updateStatus (failNTimes n) false 0 "err"

/-- EPA PM2.5 breakpoints (c_low, c_high, aqi_low, aqi_high) from
PurpleAirAdapter._pm25_to_aqi. -/
def PM25_BREAKPOINTS : List (ℚ × ℚ × ℤ × ℤ) :=
  [ (0, 12, 0, 50),
    (12.1, 35.4, 51, 100),
    (35.5, 55.4, 101, 150),
    (55.5, 150.4, 151, 200),
    (150.5, 250.4, 201, 300),
    (250.5, 350.4, 301, 400),
    (350.5, 500.4, 401, 500) ]

/-- The first-match scan over the breakpoint list, with the linear
interpolation of the loop body. -/
def pm25ToAqiScan (pm25 : ℚ) : List (ℚ × ℚ × ℤ × ℤ) → Option ℤ
  | [] => none
  | (cLow, cHigh, aqiLow, aqiHigh) :: rest =>
      if cLow ≤ pm25 ∧ pm25 ≤ cHigh then
        some (pyRound (((aqiHigh : ℚ) - (aqiLow : ℚ)) / (cHigh - cLow) * (pm25 - cLow) + (aqiLow : ℚ)))
      else pm25ToAqiScan pm25 rest

/-- PurpleAirAdapter._pm25_to_aqi (apps/adapters/purpleair.py): first
matching breakpoint interpolated and rounded; 500 beyond the scale; 0 when
no breakpoint matches (negative input or a gap between breakpoints). -/
def pm25ToAqi (pm25 : ℚ) : ℤ :=
  match pm25ToAqiScan pm25 PM25_BREAKPOINTS with
  | some a => a
  | none => if pm25 > 500.4 then 500 else 0

/-- apply_purpleair_epa_correction (apps/core/utils.py): piecewise linear
EPA correction, first matching branch; None passes through. -/
def applyPurpleairEpaCorrection : Option ℚ → Option ℚ
  | none => none
  | some pm25Raw =>
      some
        (if pm25Raw < 30 then 0.524 * pm25Raw - 0.0862
         else if pm25Raw < 50 then 0.786 * pm25Raw - 5.1327
         else if pm25Raw < 210 then 0.69 * pm25Raw + 2.966
         else if pm25Raw < 260 then 0.786 * pm25Raw - 5.1327
         else 0.69 * pm25Raw + 2.966)

/-- One forecast dict an adapter hands to the aggregator: its timestamp is
already parsed to seconds (None when the timestamp key is missing). -/
structure ForecastPoint where
  timestamp : Option ℤ
  aqi : Option ℤ
  pollutants : List (String × Option ℚ)
  source : Option String
deriving DecidableEq, Repr

/-- A ForecastData row persisted by ForecastAggregator._store_forecasts. -/
structure ForecastRecord where
  lat : ℚ
  lon : ℚ
  forecastTimestamp : ℤ
  aqi : ℤ
  category : String
  pollutants : List (String × Option ℚ)
  source : String
  confidenceLevel : String
deriving DecidableEq, Repr

/-- ForecastAggregator._store_forecasts: skip points without a timestamp,
skip points whose timestamp is in the past, and persist the rest. -/
def storeForecasts (now : ℤ) (lat lon : ℚ)
    (forecastList : List ForecastPoint) : List ForecastRecord :=
  forecastList.filterMap fun f =>
    match f.timestamp with
    | none => none
    | some ts =>
        if ts < now then none
        else
          some
            { lat := lat
              lon := lon
              forecastTimestamp := ts
              aqi := f.aqi.getD 0
              category :=
                match convertAqiToCategory (f.aqi.getD 0) "EPA" with
                | some c => c.category
                | none => "Unknown"
              pollutants := f.pollutants
              source := f.source.getD "UNKNOWN"
              confidenceLevel := "medium" }

/-- Hour truncation used by ForecastAggregator._group_by_hour
(timestamp.replace(minute=0, second=0, microsecond=0)). -/
def hourKey (ts : ℤ) : ℤ := ts - ts % 3600

/-- Ascending insertion sort on integers, modelling sorted() over the
grouped dict's keys (the keys are distinct, so stability is moot). -/
def insertAsc (k : ℤ) : List ℤ → List ℤ
  | [] => [k]
  | e :: es => if k ≤ e then k :: e :: es else e :: insertAsc k es

/-- sorted(keys) ascending. -/
def sortAsc : List ℤ → List ℤ
  | [] => []
  | k :: ks => insertAsc k (sortAsc ks)

/-- An aggregated per-hour bucket returned by
ForecastAggregator._aggregate_hour (pollutants as a finite map, sources as
the set built by list(set(...)) over the truthy source values). -/
structure AggBucket where
  timestamp : Option ℤ
  aqi : ℤ
  category : String
  pollutants : String → Option ℚ
  sources : Finset String
  sourceCount : ℕ

/-- The non-None values a bucket's forecasts report for one pollutant key. -/
def hourPollutantValues (forecasts : List ForecastPoint) (key : String) : List ℚ :=
  forecasts.foldr
    (fun f acc =>
      (f.pollutants.filterMap fun kv => if kv.1 = key then kv.2 else none) ++ acc)
    []

/-- ForecastAggregator._aggregate_hour: None when no forecast in the bucket
has an aqi, else the arithmetic means (Python-rounded), the EPA category of
the mean, the set of truthy sources, and the first forecast's timestamp. -/
def aggregateHour (forecasts : List ForecastPoint) : Option AggBucket :=
  match forecasts with
  | [] => none
  | first :: _ =>
      let aqiValues := forecasts.filterMap (fun f => f.aqi)
      if aqiValues.isEmpty then none
      else
        let avgAqi := pyRound ((aqiValues.map (fun a => (a : ℚ))).sum / (aqiValues.length : ℚ))
        let sources :=
          (forecasts.filterMap fun f =>
            match f.source with
            | some "" => none
            | s => s).toFinset
        some
          { timestamp := first.timestamp
            aqi := avgAqi
            category :=
              match convertAqiToCategory avgAqi "EPA" with
              | some c => c.category
              | none => "Unknown"
            pollutants := fun key =>
              let vs := hourPollutantValues forecasts key
              if vs.isEmpty then none
              else some (pyRoundTo 2 (vs.sum / (vs.length : ℚ)))
            sources := sources
            sourceCount := sources.card }

/-- ForecastAggregator.aggregate_forecasts on the cache-miss path: persist
individual points (first component, the _store_forecasts side effect), then
group the ORIGINAL input list by hour, aggregate each bucket, and return the
buckets in ascending hour order. -/
def aggregateForecasts (now : ℤ) (lat lon : ℚ)
    (forecastList : List ForecastPoint) : List ForecastRecord × List AggBucket :=
  if forecastList.isEmpty then ([], [])
  else
    let stored := storeForecasts now lat lon forecastList
    let keys := sortAsc ((forecastList.filterMap fun f => f.timestamp.map hourKey).dedup)
    let buckets := keys.filterMap fun k =>
      aggregateHour (forecastList.filter fun f =>
        match f.timestamp with
        | some ts => decide (hourKey ts = k)
        | none => false)
    (stored, buckets)

/-- A left fold whose step adds a per-element contribution is the initial
value plus the sum of the contributions. -/
theorem foldl_add_sum {α : Type} {M : Type} [AddMonoid M] (c : α → M) :
    ∀ (l : List α) (init : M),
      l.foldl (fun acc x => acc + c x) init = init + (l.map c).sum
  | [], init => by simp
  | x :: xs, init => by
      rw [List.foldl_cons, foldl_add_sum c xs (init + c x)]
      simp [add_assoc]

/-- The contribution of one weighted measurement to the _blend_aqi
accumulator: (aqi * weight, weight) when the aqi is present, (0, 0)
otherwise. -/
def aqiContrib (p : SourceData × ℚ) : ℚ × ℚ :=
  match p.1.aqi with
  | some a => ((a : ℚ) * p.2, p.2)
  | none => (0, 0)

theorem blendAqi_eq_sum (ws : List (SourceData × ℚ)) :
    blendAqi ws =
      if (ws.map aqiContrib).sum.2 = 0 then 0
      else pyRound ((ws.map aqiContrib).sum.1 / (ws.map aqiContrib).sum.2) := by
  unfold blendAqi
  have hstep :
      (fun (acc : ℚ × ℚ) (p : SourceData × ℚ) =>
        match p.1.aqi with
        | some a => (acc.1 + (a : ℚ) * p.2, acc.2 + p.2)
        | none => acc)
      = fun acc p => acc + aqiContrib p := by
    funext acc p
    cases h : p.1.aqi <;> simp [aqiContrib, h, Prod.ext_iff]
  rw [hstep, foldl_add_sum]
  simp

theorem aqiContrib_sum_fst (ws : List (SourceData × ℚ)) :
    (ws.map aqiContrib).sum.1 =
      ((ws.filter fun p => p.1.aqi.isSome).map
        fun p => ((p.1.aqi.getD 0 : ℤ) : ℚ) * p.2).sum := by
  induction ws with
  | nil => simp
  | cons p ps ih =>
      cases h : p.1.aqi with
      | none => simpa [aqiContrib, h, List.filter_cons] using ih
      | some a => simpa [aqiContrib, h, List.filter_cons] using congrArg (fun q => (a : ℚ) * p.2 + q) ih

theorem aqiContrib_sum_snd (ws : List (SourceData × ℚ)) :
    (ws.map aqiContrib).sum.2 =
      ((ws.filter fun p => p.1.aqi.isSome).map fun p => p.2).sum := by
  induction ws with
  | nil => simp
  | cons p ps ih =>
      cases h : p.1.aqi with
      | none => simpa [aqiContrib, h, List.filter_cons] using ih
      | some a => simpa [aqiContrib, h, List.filter_cons] using congrArg (fun q => p.2 + q) ih

/-- A minimal measurement with the given source and aqi, used to evaluate
the fusion definitions on concrete inputs. -/
def mAqi (src : String) (a : Option ℤ) : SourceData :=
  { source := src
    lat := 0
    lon := 0
    timestamp := 0
    aqi := a
    pollutants := []
    qualityLevel := "verified"
    distanceKm := none
    confidenceScore := none
    stationName := none }

/-- Claim C2, amended: the blended AQI is the weighted mean over exactly the
measurements with non-null aqi, rounded with Python's round (half to EVEN,
not half away from zero), and 0 when the total weight over those
measurements is 0. -/
theorem blendAqi_weighted_mean (ws : List (SourceData × ℚ)) :
    blendAqi ws =
      if ((ws.filter fun p => p.1.aqi.isSome).map fun p => p.2).sum = 0 then 0
      else
        pyRound
          (((ws.filter fun p => p.1.aqi.isSome).map
              fun p => ((p.1.aqi.getD 0 : ℤ) : ℚ) * p.2).sum /
            ((ws.filter fun p => p.1.aqi.isSome).map fun p => p.2).sum) := by
  rw [blendAqi_eq_sum, aqiContrib_sum_fst, aqiContrib_sum_snd]

/-- Claim C2, counterexample to the rounding mode as claimed: two unit-weight
measurements with AQI 0 and 1 give the weighted mean 1/2; the code rounds it
to 0 (Python rounds half to even) while rounding half away from zero would
give 1. -/
theorem blendAqi_rounding_counterexample :
    blendAqi [(mAqi "A" (some 0), 1), (mAqi "B" (some 1), 1)] = 0 ∧
    specRoundHalfAwayFromZero (((0 : ℚ) * 1 + 1 * 1) / (1 + 1)) = 1 := by
  constructor <;> norm_num [blendAqi, mAqi, pyRound, specRoundHalfAwayFromZero]

/-- Claim C3: when every measurement has a present aqi within the given
bounds (and within the EPA 0..500 range) and every weight is positive, the
blended AQI lies within those bounds -- instantiating lo and hi with the
minimum and maximum aqi of the set gives the claim; and the blend of a
single positively weighted measurement is exactly its aqi. -/
theorem blendAqi_bounds :
    (∀ (ws : List (SourceData × ℚ)) (lo hi : ℤ),
        ws ≠ [] →
        (∀ p ∈ ws, p.1.aqi.isSome = true) →
        (∀ p ∈ ws, 0 ≤ p.1.aqi.getD 0 ∧ p.1.aqi.getD 0 ≤ 500) →
        (∀ p ∈ ws, lo ≤ p.1.aqi.getD 0 ∧ p.1.aqi.getD 0 ≤ hi) →
        (∀ p ∈ ws, 0 < p.2) →
        lo ≤ blendAqi ws ∧ blendAqi ws ≤ hi) ∧
    (∀ (sd : SourceData) (wt : ℚ) (a : ℤ),
        sd.aqi = some a → 0 < wt → blendAqi [(sd, wt)] = a) := by
  constructor
  · intro ws lo hi hne hsome _ hbounds hpos
    have hfil : ws.filter (fun p => p.1.aqi.isSome) = ws :=
      List.filter_eq_self.mpr hsome
    have hsum2 : 0 < ((ws.filter fun p => p.1.aqi.isSome).map fun p => p.2).sum := by
      rw [hfil]
      apply List.sum_pos
      · intro x hx
        rcases List.mem_map.mp hx with ⟨p, hp, rfl⟩
        exact hpos p hp
      · simpa using hne
    have hlow :
        (lo : ℚ) * ((ws.filter fun p => p.1.aqi.isSome).map fun p => p.2).sum ≤
          ((ws.filter fun p => p.1.aqi.isSome).map
            fun p => ((p.1.aqi.getD 0 : ℤ) : ℚ) * p.2).sum := by
      rw [hfil, ← List.sum_map_mul_left]
      apply List.sum_le_sum
      intro p hp
      have h1 : (lo : ℚ) ≤ ((p.1.aqi.getD 0 : ℤ) : ℚ) := by
        exact_mod_cast (hbounds p hp).1
      exact mul_le_mul_of_nonneg_right h1 (le_of_lt (hpos p hp))
    have hhigh :
        ((ws.filter fun p => p.1.aqi.isSome).map
            fun p => ((p.1.aqi.getD 0 : ℤ) : ℚ) * p.2).sum ≤
          (hi : ℚ) * ((ws.filter fun p => p.1.aqi.isSome).map fun p => p.2).sum := by
      rw [hfil, ← List.sum_map_mul_left]
      apply List.sum_le_sum
      intro p hp
      have h1 : ((p.1.aqi.getD 0 : ℤ) : ℚ) ≤ (hi : ℚ) := by
        exact_mod_cast (hbounds p hp).2
      exact mul_le_mul_of_nonneg_right h1 (le_of_lt (hpos p hp))
    rw [blendAqi_eq_sum, aqiContrib_sum_fst, aqiContrib_sum_snd]
    rw [if_neg (by exact ne_of_gt hsum2)]
    constructor
    · exact int_le_pyRound_of_le ((le_div_iff₀ hsum2).mpr hlow)
    · exact pyRound_le_of_le_int ((div_le_iff₀ hsum2).mpr hhigh)
  · intro sd wt a ha hwt
    have hwt0 : wt ≠ 0 := ne_of_gt hwt
    unfold blendAqi
    simp only [List.foldl_cons, List.foldl_nil, ha]
    rw [if_neg (by simpa using hwt0)]
    rw [zero_add, zero_add, mul_div_assoc, div_self hwt0, mul_one]
    exact pyRound_intCast a

/-- Claim C3, witness: a two-measurement set with AQIs 10 and 20 and unit
weights blends to a value within the bounds 10 and 20, and a single
measurement with AQI 42 blends to exactly 42. -/
theorem blendAqi_bounds_witness :
    (10 ≤ blendAqi [(mAqi "A" (some 10), 1), (mAqi "B" (some 20), 1)] ∧
      blendAqi [(mAqi "A" (some 10), 1), (mAqi "B" (some 20), 1)] ≤ 20) ∧
    blendAqi [(mAqi "C" (some 42), 1)] = 42 :=
  ⟨blendAqi_bounds.1 [(mAqi "A" (some 10), 1), (mAqi "B" (some 20), 1)] 10 20
      (by decide) (by decide) (by decide) (by decide) (by decide),
    blendAqi_bounds.2 (mAqi "C" (some 42)) 1 42 rfl (by norm_num)⟩

/-- The weighted fresh-source list blendMain works on. -/
def weighted (w : SourceData → ℚ) (freshData : List SourceData) :
    List (SourceData × ℚ) :=
  freshData.map fun sd => (sd, w sd)

theorem blendMain_aqi (cfg : FusionConfig) (w : SourceData → ℚ) (now : ℤ)
    (lat lon : ℚ) (f : List SourceData) :
    (blendMain cfg w now lat lon f).1.current.aqi = some (blendAqi (weighted w f)) := rfl

theorem blendMain_category (cfg : FusionConfig) (w : SourceData → ℚ) (now : ℤ)
    (lat lon : ℚ) (f : List SourceData) :
    (blendMain cfg w now lat lon f).1.current.category =
      (match convertAqiToCategory (blendAqi (weighted w f)) "EPA" with
        | some c => c.category
        | none => "Unknown") := rfl

theorem blendMain_pollutants (cfg : FusionConfig) (w : SourceData → ℚ) (now : ℤ)
    (lat lon : ℚ) (f : List SourceData) :
    (blendMain cfg w now lat lon f).1.current.pollutants =
      blendPollutants (weighted w f) := rfl

theorem blendMain_sources (cfg : FusionConfig) (w : SourceData → ℚ) (now : ℤ)
    (lat lon : ℚ) (f : List SourceData) :
    (blendMain cfg w now lat lon f).1.current.sources =
      ((weighted w f).map fun p => p.1.source).toFinset := rfl

theorem blendMain_lastUpdated (cfg : FusionConfig) (w : SourceData → ℚ) (now : ℤ)
    (lat lon : ℚ) (f : List SourceData) :
    (blendMain cfg w now lat lon f).1.current.lastUpdated =
      maxTimestamp (weighted w f) := rfl

theorem blendMain_sourceDetails (cfg : FusionConfig) (w : SourceData → ℚ) (now : ℤ)
    (lat lon : ℚ) (f : List SourceData) :
    (blendMain cfg w now lat lon f).1.sourceDetails =
      sortByWeightDesc ((weighted w f).map mkSourceDetail) := rfl

theorem blendMain_error (cfg : FusionConfig) (w : SourceData → ℚ) (now : ℤ)
    (lat lon : ℚ) (f : List SourceData) :
    (blendMain cfg w now lat lon f).1.error = none := rfl

theorem blendMain_cache (cfg : FusionConfig) (w : SourceData → ℚ) (now : ℤ)
    (lat lon : ℚ) (f : List SourceData) :
    (blendMain cfg w now lat lon f).2 =
      some
        { currentAqi := blendAqi (weighted w f)
          category :=
            match convertAqiToCategory (blendAqi (weighted w f)) "EPA" with
            | some c => c.category
            | none => "Unknown"
          pollutants := blendPollutants (weighted w f)
          sources := ((weighted w f).map fun p => p.1.source).toFinset
          sourceCount := (((weighted w f).map fun p => p.1.source).toFinset).card
          cachedUntil := now + cfg.responseCacheTtl } := rfl

theorem blend_eq_default (cfg : FusionConfig) (w : SourceData → ℚ) (now : ℤ)
    (lat lon : ℚ) (l : List SourceData)
    (h : l.filter (fun sd => isDataFresh now sd.timestamp cfg.maxDataAgeHours) = []) :
    blend cfg w now lat lon l = (defaultResponse lat lon now, none) := by
  unfold blend
  rw [h]
  rfl

theorem blend_eq_blendMain (cfg : FusionConfig) (w : SourceData → ℚ) (now : ℤ)
    (lat lon : ℚ) (l : List SourceData)
    (h : l.filter (fun sd => isDataFresh now sd.timestamp cfg.maxDataAgeHours) ≠ []) :
    blend cfg w now lat lon l =
      blendMain cfg w now lat lon
        (l.filter fun sd => isDataFresh now sd.timestamp cfg.maxDataAgeHours) := by
  unfold blend
  rw [if_neg]
  simpa [List.isEmpty_iff] using h

/-- Claim C4, amended: blend first discards the measurements whose age is at
least MAX_DATA_AGE_HOURS (the code keeps exactly the measurements with
age strictly less than the maximum, so a measurement exactly 3 hours old is
discarded too), and when nothing is left it returns the default unavailable
response -- aqi null, category Unavailable, empty pollutants and sources,
error string "No fresh air quality data available for this location" --
without blending or caching anything. -/
theorem blend_stale_default (cfg : FusionConfig) (w : SourceData → ℚ) (now : ℤ)
    (lat lon : ℚ) (l : List SourceData)
    (h : l.filter (fun sd => isDataFresh now sd.timestamp cfg.maxDataAgeHours) = []) :
    blend cfg w now lat lon l = (defaultResponse lat lon now, none) ∧
    (blend cfg w now lat lon l).1.current.aqi = none ∧
    (blend cfg w now lat lon l).1.current.category = "Unavailable" ∧
    (blend cfg w now lat lon l).1.current.pollutants = (fun _ => none) ∧
    (blend cfg w now lat lon l).1.current.sources = ∅ ∧
    (blend cfg w now lat lon l).1.error =
      some "No fresh air quality data available for this location" ∧
    (blend cfg w now lat lon l).2 = none := by
  have hb := blend_eq_default cfg w now lat lon l h
  refine ⟨hb, ?_, ?_, ?_, ?_, ?_, ?_⟩ <;> rw [hb] <;> rfl

/-- Claim C4, witness: a single measurement exactly three hours old is
filtered out and the default response is returned. -/
theorem blend_stale_default_witness :
    ([mAqi "A" (some 42)].filter
      (fun sd => isDataFresh 10800 sd.timestamp ({} : FusionConfig).maxDataAgeHours)) = [] ∧
    blend {} (fun _ => 1) 10800 0 0 [mAqi "A" (some 42)] =
      (defaultResponse 0 0 10800, none) :=
  ⟨by decide,
    (blend_stale_default {} (fun _ => 1) 10800 0 0 [mAqi "A" (some 42)] (by decide)).1⟩

/-- Claim C4, counterexample to the claim exactly as stated: a measurement
exactly 3 hours old is NOT older than MAX_DATA_AGE_HOURS, yet blend discards
it and returns the default response; and the error string carries the longer
text ending in "for this location", not the claimed shorter string. -/
theorem blend_stale_counterexample :
    ¬(10800 - (mAqi "A" (some 42)).timestamp > 3 * 3600) ∧
    (blend {} (fun _ => 1) 10800 0 0 [mAqi "A" (some 42)]).1.current.aqi = none ∧
    (blend {} (fun _ => 1) 10800 0 0 [mAqi "A" (some 42)]).1.error =
      some "No fresh air quality data available for this location" ∧
    (blend {} (fun _ => 1) 10800 0 0 [mAqi "A" (some 42)]).1.error ≠
      some "No fresh air quality data available" := by
  refine ⟨by decide, ?_, ?_, ?_⟩ <;> decide

/-- Claim C5: every recorded failure increments consecutive_failures by one,
every recorded success resets it to 0, every state reachable from the
freshly created row with at least 10 consecutive failures is inactive, and a
recorded success never changes is_active (in particular it never turns a
disabled adapter back on). -/
theorem adapterStatus_state_machine :
    (∀ (s : AdapterStatus) (now : ℤ) (msg : String),
        (updateStatus s false now msg).consecutiveFailures = s.consecutiveFailures + 1) ∧
    (∀ (s : AdapterStatus) (now : ℤ) (msg : String),
        (updateStatus s true now msg).consecutiveFailures = 0) ∧
    (∀ s : AdapterStatus, ReachableStatus s →
        10 ≤ s.consecutiveFailures → s.isActive = false) ∧
    (∀ (s : AdapterStatus) (now : ℤ) (msg : String),
        (updateStatus s true now msg).isActive = s.isActive) := by
  refine ⟨?_, ?_, ?_, ?_⟩
  · intro s now msg
    simp only [updateStatus, Bool.false_eq_true, if_false]
    split_ifs <;> rfl
  · intro s now msg
    simp only [updateStatus, if_true]
    split_ifs <;> rfl
  · intro s hs
    induction hs with
    | init => intro h10; simp [initialAdapterStatus] at h10
    | step s success now msg _ _ =>
        intro h10
        cases success with
        | false =>
            by_cases hc : 10 ≤ s.consecutiveFailures + 1
            · simp only [updateStatus, Bool.false_eq_true, if_false, if_pos hc]
            · exfalso
              simp only [updateStatus, Bool.false_eq_true, if_false, if_neg hc] at h10
              exact hc h10
        | true =>
            exfalso
            simp [updateStatus] at h10
  · intro s now msg
    simp [updateStatus]

/-- Any number of consecutive recorded failures keeps the status reachable. -/
theorem reachable_failNTimes (n : ℕ) : ReachableStatus (failNTimes n) := by
  induction n with
  | zero => exact ReachableStatus.init
  | succ n ih => exact ReachableStatus.step (failNTimes n) false 0 "err" ih

/-- Claim C5, witness: after 10 recorded failures the counter is 10 and the
adapter has been auto-disabled; a subsequent success does not re-enable it. -/
theorem adapterStatus_state_machine_witness :
    10 ≤ (failNTimes 10).consecutiveFailures ∧
    (failNTimes 10).isActive = false ∧
    (updateStatus (failNTimes 10) true 0 "").isActive = false :=
  ⟨by decide,
    adapterStatus_state_machine.2.2.1 (failNTimes 10) (reachable_failNTimes 10) (by decide),
    by
      rw [adapterStatus_state_machine.2.2.2 (failNTimes 10) 0 ""]
      exact adapterStatus_state_machine.2.2.1 (failNTimes 10) (reachable_failNTimes 10)
        (by decide)⟩

/-- When every measurement in the list has a null aqi the accumulated
weighted sum and total weight are both zero, so _blend_aqi returns 0. -/
theorem blendAqi_all_none (ws : List (SourceData × ℚ))
    (h : ∀ p ∈ ws, p.1.aqi = none) : blendAqi ws = 0 := by
  rw [blendAqi_eq_sum]
  have hz : (ws.map aqiContrib).sum = 0 := by
    apply List.sum_eq_zero
    intro x hx
    rcases List.mem_map.mp hx with ⟨p, hp, rfl⟩
    simp [aqiContrib, h p hp]
  rw [hz]
  simp

/-- Claim C10: when the fresh set is non-empty but every fresh measurement
has a null aqi, blend returns AQI 0 with category Good (0 falls in the
first EPA category) and writes that result to the cache, instead of the
Unavailable default. -/
theorem blend_all_null_aqi (cfg : FusionConfig) (w : SourceData → ℚ) (now : ℤ)
    (lat lon : ℚ) (l : List SourceData)
    (hne : l.filter (fun sd => isDataFresh now sd.timestamp cfg.maxDataAgeHours) ≠ [])
    (hnull : ∀ sd ∈ l.filter (fun sd => isDataFresh now sd.timestamp cfg.maxDataAgeHours),
      sd.aqi = none) :
    (blend cfg w now lat lon l).1.current.aqi = some 0 ∧
    (blend cfg w now lat lon l).1.current.category = "Good" ∧
    (blend cfg w now lat lon l).1.error = none ∧
    ∃ ce, (blend cfg w now lat lon l).2 = some ce ∧
      ce.currentAqi = 0 ∧ ce.category = "Good" := by
  have hb := blend_eq_blendMain cfg w now lat lon l hne
  have haqi :
      blendAqi (weighted w
        (l.filter fun sd => isDataFresh now sd.timestamp cfg.maxDataAgeHours)) = 0 := by
    apply blendAqi_all_none
    intro p hp
    rcases List.mem_map.mp hp with ⟨sd, hsd, rfl⟩
    exact hnull sd hsd
  have hcat : convertAqiToCategory 0 "EPA" = some (EPA_AQI_CATEGORIES.get ⟨0, by decide⟩) := by
    decide
  refine ⟨?_, ?_, ?_, ?_⟩
  · rw [hb, blendMain_aqi, haqi]
  · rw [hb, blendMain_category, haqi, hcat]
    rfl
  · rw [hb, blendMain_error]
  · rw [hb, blendMain_cache]
    exact ⟨_, rfl, by simp [haqi], by rw [haqi, hcat]; rfl⟩

/-- Claim C10, witness: one fresh measurement with a null aqi blends to
AQI 0, category Good, with a cache write. -/
theorem blend_all_null_aqi_witness :
    ([mAqi "A" none].filter
      (fun sd => isDataFresh 0 sd.timestamp ({} : FusionConfig).maxDataAgeHours)) ≠ [] ∧
    (blend {} (fun _ => 1) 0 0 0 [mAqi "A" none]).1.current.aqi = some 0 ∧
    (blend {} (fun _ => 1) 0 0 0 [mAqi "A" none]).1.current.category = "Good" :=
  ⟨by decide,
    (blend_all_null_aqi {} (fun _ => 1) 0 0 0 [mAqi "A" none] (by decide) (by decide)).1,
    (blend_all_null_aqi {} (fun _ => 1) 0 0 0 [mAqi "A" none] (by decide) (by decide)).2.1⟩

/-- The gaps between consecutive EPA PM2.5 breakpoints: concentrations that
no breakpoint interval contains (the breakpoint table is stated to one
decimal place and leaves these open intervals uncovered). -/
def inBreakpointGap (x : ℚ) : Prop :=
  (12 < x ∧ x < 12.1) ∨ (35.4 < x ∧ x < 35.5) ∨ (55.4 < x ∧ x < 55.5) ∨
  (150.4 < x ∧ x < 150.5) ∨ (250.4 < x ∧ x < 250.5) ∨ (350.4 < x ∧ x < 350.5)

theorem pm25_eval0 {x : ℚ} (h1 : 0 ≤ x) (h2 : x ≤ 12) :
    pm25ToAqi x = pyRound (50 / 12 * x) := by
  simp only [pm25ToAqi, PM25_BREAKPOINTS, pm25ToAqiScan]
  rw [if_pos ⟨h1, h2⟩]
  push_cast
  ring_nf

theorem pm25_eval1 {x : ℚ} (h1 : 12.1 ≤ x) (h2 : x ≤ 35.4) :
    pm25ToAqi x = pyRound (49 / 23.3 * (x - 12.1) + 51) := by
  simp only [pm25ToAqi, PM25_BREAKPOINTS, pm25ToAqiScan]
  rw [if_neg (by rintro ⟨h3, h4⟩; linarith), if_pos ⟨h1, h2⟩]
  push_cast
  ring_nf

theorem pm25_eval2 {x : ℚ} (h1 : 35.5 ≤ x) (h2 : x ≤ 55.4) :
    pm25ToAqi x = pyRound (49 / 19.9 * (x - 35.5) + 101) := by
  simp only [pm25ToAqi, PM25_BREAKPOINTS, pm25ToAqiScan]
  rw [if_neg (by rintro ⟨h3, h4⟩; linarith), if_neg (by rintro ⟨h3, h4⟩; linarith),
    if_pos ⟨h1, h2⟩]
  push_cast
  ring_nf

theorem pm25_eval3 {x : ℚ} (h1 : 55.5 ≤ x) (h2 : x ≤ 150.4) :
    pm25ToAqi x = pyRound (49 / 94.9 * (x - 55.5) + 151) := by
  simp only [pm25ToAqi, PM25_BREAKPOINTS, pm25ToAqiScan]
  rw [if_neg (by rintro ⟨h3, h4⟩; linarith), if_neg (by rintro ⟨h3, h4⟩; linarith),
    if_neg (by rintro ⟨h3, h4⟩; linarith), if_pos ⟨h1, h2⟩]
  push_cast
  ring_nf

theorem pm25_eval4 {x : ℚ} (h1 : 150.5 ≤ x) (h2 : x ≤ 250.4) :
    pm25ToAqi x = pyRound (99 / 99.9 * (x - 150.5) + 201) := by
  simp only [pm25ToAqi, PM25_BREAKPOINTS, pm25ToAqiScan]
  rw [if_neg (by rintro ⟨h3, h4⟩; linarith), if_neg (by rintro ⟨h3, h4⟩; linarith),
    if_neg (by rintro ⟨h3, h4⟩; linarith), if_neg (by rintro ⟨h3, h4⟩; linarith),
    if_pos ⟨h1, h2⟩]
  push_cast
  ring_nf

theorem pm25_eval5 {x : ℚ} (h1 : 250.5 ≤ x) (h2 : x ≤ 350.4) :
    pm25ToAqi x = pyRound (99 / 99.9 * (x - 250.5) + 301) := by
  simp only [pm25ToAqi, PM25_BREAKPOINTS, pm25ToAqiScan]
  rw [if_neg (by rintro ⟨h3, h4⟩; linarith), if_neg (by rintro ⟨h3, h4⟩; linarith),
    if_neg (by rintro ⟨h3, h4⟩; linarith), if_neg (by rintro ⟨h3, h4⟩; linarith),
    if_neg (by rintro ⟨h3, h4⟩; linarith), if_pos ⟨h1, h2⟩]
  push_cast
  ring_nf

theorem pm25_eval6 {x : ℚ} (h1 : 350.5 ≤ x) (h2 : x ≤ 500.4) :
    pm25ToAqi x = pyRound (99 / 149.9 * (x - 350.5) + 401) := by
  simp only [pm25ToAqi, PM25_BREAKPOINTS, pm25ToAqiScan]
  rw [if_neg (by rintro ⟨h3, h4⟩; linarith), if_neg (by rintro ⟨h3, h4⟩; linarith),
    if_neg (by rintro ⟨h3, h4⟩; linarith), if_neg (by rintro ⟨h3, h4⟩; linarith),
    if_neg (by rintro ⟨h3, h4⟩; linarith), if_neg (by rintro ⟨h3, h4⟩; linarith),
    if_pos ⟨h1, h2⟩]
  push_cast
  ring_nf

set_option maxHeartbeats 1600000 in
theorem pm25_up0 {x : ℚ} (h : x < 12.1) : pm25ToAqi x ≤ 50 := by
  simp only [pm25ToAqi, PM25_BREAKPOINTS, pm25ToAqiScan]
  split_ifs <;> (try casesm* _ ∧ _) <;>
    first
      | (apply pyRound_le_of_le_int; push_cast; linarith)
      | (exfalso; linarith)
      | (norm_num; done)

set_option maxHeartbeats 1600000 in
theorem pm25_up1 {x : ℚ} (h : x < 35.5) : pm25ToAqi x ≤ 100 := by
  simp only [pm25ToAqi, PM25_BREAKPOINTS, pm25ToAqiScan]
  split_ifs <;> (try casesm* _ ∧ _) <;>
    first
      | (apply pyRound_le_of_le_int; push_cast; linarith)
      | (exfalso; linarith)
      | (norm_num; done)

set_option maxHeartbeats 1600000 in
theorem pm25_up2 {x : ℚ} (h : x < 55.5) : pm25ToAqi x ≤ 150 := by
  simp only [pm25ToAqi, PM25_BREAKPOINTS, pm25ToAqiScan]
  split_ifs <;> (try casesm* _ ∧ _) <;>
    first
      | (apply pyRound_le_of_le_int; push_cast; linarith)
      | (exfalso; linarith)
      | (norm_num; done)

set_option maxHeartbeats 1600000 in
theorem pm25_up3 {x : ℚ} (h : x < 150.5) : pm25ToAqi x ≤ 200 := by
  simp only [pm25ToAqi, PM25_BREAKPOINTS, pm25ToAqiScan]
  split_ifs <;> (try casesm* _ ∧ _) <;>
    first
      | (apply pyRound_le_of_le_int; push_cast; linarith)
      | (exfalso; linarith)
      | (norm_num; done)

set_option maxHeartbeats 1600000 in
theorem pm25_up4 {x : ℚ} (h : x < 250.5) : pm25ToAqi x ≤ 300 := by
  simp only [pm25ToAqi, PM25_BREAKPOINTS, pm25ToAqiScan]
  split_ifs <;> (try casesm* _ ∧ _) <;>
    first
      | (apply pyRound_le_of_le_int; push_cast; linarith)
      | (exfalso; linarith)
      | (norm_num; done)

set_option maxHeartbeats 1600000 in
theorem pm25_up5 {x : ℚ} (h : x < 350.5) : pm25ToAqi x ≤ 400 := by
  simp only [pm25ToAqi, PM25_BREAKPOINTS, pm25ToAqiScan]
  split_ifs <;> (try casesm* _ ∧ _) <;>
    first
      | (apply pyRound_le_of_le_int; push_cast; linarith)
      | (exfalso; linarith)
      | (norm_num; done)

set_option maxHeartbeats 3200000 in
/-- Claim C9: _pm25_to_aqi always returns an integer in 0..500; inputs above
500.4 return 500; negative inputs return 0; and inputs in any gap between
consecutive breakpoints return 0. -/
theorem pm25ToAqi_range (x : ℚ) :
    (0 ≤ pm25ToAqi x ∧ pm25ToAqi x ≤ 500) ∧
    (500.4 < x → pm25ToAqi x = 500) ∧
    (x < 0 → pm25ToAqi x = 0) ∧
    (inBreakpointGap x → pm25ToAqi x = 0) := by
  refine ⟨⟨?_, ?_⟩, ?_, ?_, ?_⟩
  · simp only [pm25ToAqi, PM25_BREAKPOINTS, pm25ToAqiScan]
    split_ifs <;> (try casesm* _ ∧ _) <;>
      first
        | (apply int_le_pyRound_of_le; push_cast; linarith)
        | (exfalso; linarith)
        | (norm_num; done)
  · simp only [pm25ToAqi, PM25_BREAKPOINTS, pm25ToAqiScan]
    split_ifs <;> (try casesm* _ ∧ _) <;>
      first
        | (apply pyRound_le_of_le_int; push_cast; linarith)
        | (exfalso; linarith)
        | (norm_num; done)
  · intro hx
    simp only [pm25ToAqi, PM25_BREAKPOINTS, pm25ToAqiScan]
    split_ifs <;> (try casesm* _ ∧ _) <;>
      first
        | rfl
        | (exfalso; linarith)
  · intro hx
    simp only [pm25ToAqi, PM25_BREAKPOINTS, pm25ToAqiScan]
    split_ifs <;> (try casesm* _ ∧ _) <;>
      first
        | rfl
        | (exfalso; linarith)
  · intro hx
    simp only [pm25ToAqi, PM25_BREAKPOINTS, pm25ToAqiScan]
    split_ifs <;> (try casesm* _ ∧ _) <;>
      first
        | rfl
        | (exfalso;
            rcases hx with ⟨g1, g2⟩ | ⟨g1, g2⟩ | ⟨g1, g2⟩ | ⟨g1, g2⟩ | ⟨g1, g2⟩ | ⟨g1, g2⟩ <;>
              linarith)

/-- Claim C9, witness: the range bound at 7, the saturation at 600, a
negative input, and the gap input 12.05 all evaluate as the theorem states. -/
theorem pm25ToAqi_range_witness :
    (0 ≤ pm25ToAqi 7 ∧ pm25ToAqi 7 ≤ 500) ∧
    ((500.4 : ℚ) < 600 ∧ pm25ToAqi 600 = 500) ∧
    ((-1 : ℚ) < 0 ∧ pm25ToAqi (-1) = 0) ∧
    (inBreakpointGap 12.05 ∧ pm25ToAqi 12.05 = 0) :=
  ⟨(pm25ToAqi_range 7).1,
    ⟨by norm_num, (pm25ToAqi_range 600).2.1 (by norm_num)⟩,
    ⟨by norm_num, (pm25ToAqi_range (-1)).2.2.1 (by norm_num)⟩,
    ⟨by norm_num [inBreakpointGap],
      (pm25ToAqi_range 12.05).2.2.2 (by norm_num [inBreakpointGap])⟩⟩

/-- Claim C6, amended: the PM2.5 to AQI conversion is monotonic
non-decreasing on [0, 500.4] EXCEPT at the points of the gaps between
consecutive breakpoints (such as 12.0 < y < 12.1), which the breakpoint scan
misses and maps to 0: whenever the larger argument is not in a gap,
monotonicity holds. -/
theorem pm25ToAqi_mono_on_breakpoints (x y : ℚ) (hx : 0 ≤ x) (hxy : x ≤ y)
    (hy : y ≤ 500.4) (hgap : ¬inBreakpointGap y) :
    pm25ToAqi x ≤ pm25ToAqi y := by
  rcases le_or_lt y 12 with h0 | h0
  · rw [pm25_eval0 hx (by linarith), pm25_eval0 (by linarith) h0]
    apply pyRound_mono
    linarith
  · have hy1 : (12.1 : ℚ) ≤ y := by
      by_contra hc
      push_neg at hc
      exact hgap (Or.inl ⟨h0, hc⟩)
    rcases le_or_lt y 35.4 with h1 | h1
    · by_cases hxc : x < 12.1
      · calc pm25ToAqi x ≤ 50 := pm25_up0 hxc
          _ ≤ pm25ToAqi y := by
              rw [pm25_eval1 hy1 h1]
              apply int_le_pyRound_of_le
              push_cast
              linarith
      · push_neg at hxc
        rw [pm25_eval1 hxc (by linarith), pm25_eval1 hy1 h1]
        apply pyRound_mono
        linarith
    · have hy2 : (35.5 : ℚ) ≤ y := by
        by_contra hc
        push_neg at hc
        exact hgap (Or.inr (Or.inl ⟨h1, hc⟩))
      rcases le_or_lt y 55.4 with h2 | h2
      · by_cases hxc : x < 35.5
        · calc pm25ToAqi x ≤ 100 := pm25_up1 hxc
            _ ≤ pm25ToAqi y := by
                rw [pm25_eval2 hy2 h2]
                apply int_le_pyRound_of_le
                push_cast
                linarith
        · push_neg at hxc
          rw [pm25_eval2 hxc (by linarith), pm25_eval2 hy2 h2]
          apply pyRound_mono
          linarith
      · have hy3 : (55.5 : ℚ) ≤ y := by
          by_contra hc
          push_neg at hc
          exact hgap (Or.inr (Or.inr (Or.inl ⟨h2, hc⟩)))
        rcases le_or_lt y 150.4 with h3 | h3
        · by_cases hxc : x < 55.5
          · calc pm25ToAqi x ≤ 150 := pm25_up2 hxc
              _ ≤ pm25ToAqi y := by
                  rw [pm25_eval3 hy3 h3]
                  apply int_le_pyRound_of_le
                  push_cast
                  linarith
          · push_neg at hxc
            rw [pm25_eval3 hxc (by linarith), pm25_eval3 hy3 h3]
            apply pyRound_mono
            linarith
        · have hy4 : (150.5 : ℚ) ≤ y := by
            by_contra hc
            push_neg at hc
            exact hgap (Or.inr (Or.inr (Or.inr (Or.inl ⟨h3, hc⟩))))
          rcases le_or_lt y 250.4 with h4 | h4
          · by_cases hxc : x < 150.5
            · calc pm25ToAqi x ≤ 200 := pm25_up3 hxc
                _ ≤ pm25ToAqi y := by
                    rw [pm25_eval4 hy4 h4]
                    apply int_le_pyRound_of_le
                    push_cast
                    linarith
            · push_neg at hxc
              rw [pm25_eval4 hxc (by linarith), pm25_eval4 hy4 h4]
              apply pyRound_mono
              linarith
          · have hy5 : (250.5 : ℚ) ≤ y := by
              by_contra hc
              push_neg at hc
              exact hgap (Or.inr (Or.inr (Or.inr (Or.inr (Or.inl ⟨h4, hc⟩)))))
            rcases le_or_lt y 350.4 with h5 | h5
            · by_cases hxc : x < 250.5
              · calc pm25ToAqi x ≤ 300 := pm25_up4 hxc
                  _ ≤ pm25ToAqi y := by
                      rw [pm25_eval5 hy5 h5]
                      apply int_le_pyRound_of_le
                      push_cast
                      linarith
              · push_neg at hxc
                rw [pm25_eval5 hxc (by linarith), pm25_eval5 hy5 h5]
                apply pyRound_mono
                linarith
            · have hy6 : (350.5 : ℚ) ≤ y := by
                by_contra hc
                push_neg at hc
                exact hgap (Or.inr (Or.inr (Or.inr (Or.inr (Or.inr ⟨h5, hc⟩)))))
              by_cases hxc : x < 350.5
              · calc pm25ToAqi x ≤ 400 := pm25_up5 hxc
                  _ ≤ pm25ToAqi y := by
                      rw [pm25_eval6 hy6 hy]
                      apply int_le_pyRound_of_le
                      push_cast
                      linarith
              · push_neg at hxc
                rw [pm25_eval6 hxc (by linarith), pm25_eval6 hy6 hy]
                apply pyRound_mono
                linarith

/-- Claim C6, witness: 1 and 13 are both in breakpoint intervals and the
conversion is monotone between them. -/
theorem pm25ToAqi_mono_witness :
    (0 : ℚ) ≤ 1 ∧ (1 : ℚ) ≤ 13 ∧ (13 : ℚ) ≤ 500.4 ∧ ¬inBreakpointGap 13 ∧
    pm25ToAqi 1 ≤ pm25ToAqi 13 :=
  ⟨by norm_num, by norm_num, by norm_num, by norm_num [inBreakpointGap],
    pm25ToAqi_mono_on_breakpoints 1 13 (by norm_num) (by norm_num) (by norm_num)
      (by norm_num [inBreakpointGap])⟩

/-- Claim C6, counterexample to monotonicity on all of [0, 500.4]: 12 maps
to AQI 50 but the slightly larger 12.05 falls in the breakpoint gap
(12.0, 12.1) and maps to 0. -/
theorem pm25ToAqi_mono_counterexample :
    (0 : ℚ) ≤ 12 ∧ (12 : ℚ) ≤ 12.05 ∧ (12.05 : ℚ) ≤ 500.4 ∧
    pm25ToAqi 12 = 50 ∧ pm25ToAqi 12.05 = 0 := by
  refine ⟨by norm_num, by norm_num, by norm_num, ?_, ?_⟩ <;>
    norm_num [pm25ToAqi, PM25_BREAKPOINTS, pm25ToAqiScan, pyRound]

/-- Claim C8, counterexample to the claimed corrected value: the first
correction branch at raw PM2.5 = 25 gives 0.524 * 25 - 0.0862 = 13.0138,
not 12.9238. -/
theorem purpleair_correction_counterexample :
    applyPurpleairEpaCorrection (some 25) = some 13.0138 ∧
    (13.0138 : ℚ) ≠ 12.9238 := by
  constructor
  · simp only [applyPurpleairEpaCorrection]
    norm_num
  · norm_num

/-- Claim C8, amended: raw PM2.5 = 25 with correction enabled takes the
first branch of the piecewise correction, 0.524 * 25 - 0.0862 = 13.0138
(the spec's 12.9238 is an arithmetic slip), the corrected value falls in the
breakpoint [12.1, 35.4] mapping to [51, 100], and the resulting AQI is 53,
as claimed. -/
theorem purpleair_epa_scenario :
    (25 : ℚ) < 30 ∧
    applyPurpleairEpaCorrection (some 25) = some ((0.524 : ℚ) * 25 - 0.0862) ∧
    ((0.524 : ℚ) * 25 - 0.0862) = 13.0138 ∧
    (12.1 : ℚ) ≤ 13.0138 ∧ (13.0138 : ℚ) ≤ 35.4 ∧
    pm25ToAqi 13.0138 = 53 := by
  refine ⟨by norm_num, ?_, by norm_num, by norm_num, by norm_num, ?_⟩
  · simp only [applyPurpleairEpaCorrection]
    norm_num
  · rw [pm25_eval1 (by norm_num) (by norm_num)]
    norm_num [pyRound]

/-- The contribution of one weighted measurement to the pollutant
accumulator of one key: the sum over its reported items. -/
def pollutantContrib (key : String) (p : SourceData × ℚ) : ℚ × ℚ :=
  (p.1.pollutants.map fun kv =>
    if kv.1 = key then
      match kv.2 with
      | some v => (v * p.2, p.2)
      | none => ((0 : ℚ), (0 : ℚ))
    else ((0 : ℚ), (0 : ℚ))).sum

theorem pollutantSums_eq_sum (ws : List (SourceData × ℚ)) (key : String) :
    pollutantSums ws key = (ws.map (pollutantContrib key)).sum := by
  unfold pollutantSums
  have hstep :
      (fun (acc : ℚ × ℚ) (p : SourceData × ℚ) =>
        p.1.pollutants.foldl
          (fun (acc2 : ℚ × ℚ) kv =>
            if kv.1 = key then
              match kv.2 with
              | some v => (acc2.1 + v * p.2, acc2.2 + p.2)
              | none => acc2
            else acc2)
          acc)
      = fun acc p => acc + pollutantContrib key p := by
    funext acc p
    unfold pollutantContrib
    have hstep2 :
        (fun (acc2 : ℚ × ℚ) (kv : String × Option ℚ) =>
          if kv.1 = key then
            match kv.2 with
            | some v => (acc2.1 + v * p.2, acc2.2 + p.2)
            | none => acc2
          else acc2)
        = fun acc2 kv => acc2 +
            (if kv.1 = key then
              match kv.2 with
              | some v => (v * p.2, p.2)
              | none => ((0 : ℚ), (0 : ℚ))
            else ((0 : ℚ), (0 : ℚ))) := by
      funext acc2 kv
      by_cases hk : kv.1 = key
      · cases hv : kv.2 <;> simp [hk, hv, Prod.ext_iff]
      · simp [hk, Prod.ext_iff]
    rw [hstep2, foldl_add_sum]
  rw [hstep, foldl_add_sum]
  simp

theorem blendAqi_perm {ws ws' : List (SourceData × ℚ)} (h : List.Perm ws ws') :
    blendAqi ws = blendAqi ws' := by
  rw [blendAqi_eq_sum, blendAqi_eq_sum, (h.map aqiContrib).sum_eq]

theorem blendPollutants_perm {ws ws' : List (SourceData × ℚ)} (h : List.Perm ws ws') :
    blendPollutants ws = blendPollutants ws' := by
  funext key
  unfold blendPollutants
  rw [pollutantSums_eq_sum, pollutantSums_eq_sum, (h.map (pollutantContrib key)).sum_eq]

theorem insertByWeightDesc_perm (d : SourceDetail) (l : List SourceDetail) :
    List.Perm (insertByWeightDesc d l) (d :: l) := by
  induction l with
  | nil => exact List.Perm.refl _
  | cons e es ih =>
      by_cases hc : e.weight ≤ d.weight
      · simp [insertByWeightDesc, hc]
      · simp only [insertByWeightDesc, if_neg hc]
        exact (ih.cons e).trans (List.Perm.swap d e es)

theorem sortByWeightDesc_perm (l : List SourceDetail) :
    List.Perm (sortByWeightDesc l) l := by
  induction l with
  | nil => exact List.Perm.refl _
  | cons d ds ih =>
      exact (insertByWeightDesc_perm d (sortByWeightDesc ds)).trans (ih.cons d)

instance : LeftCommutative maxTimestampStep where
  left_comm a b acc := by
    cases acc <;> simp [maxTimestampStep, max_comm, max_left_comm]

theorem maxTimestamp_perm {ws ws' : List (SourceData × ℚ)} (h : List.Perm ws ws') :
    maxTimestamp ws = maxTimestamp ws' := by
  unfold maxTimestamp
  exact @List.Perm.foldr_eq _ _ maxTimestampStep _ _ _ (h.map fun p => p.1.timestamp) none

theorem weighted_perm (w : SourceData → ℚ) {f f' : List SourceData} (h : List.Perm f f') :
    List.Perm (weighted w f) (weighted w f') := by
  unfold weighted
  exact h.map _

set_option maxHeartbeats 800000 in
/-- Claim C1, amended: blending is invariant under permutation of the input
measurement list in the blended aqi, category, pollutants, source set, last
update instant, error field and cache write; the source_details list is
invariant as a multiset (permutation), but its ORDER can differ when two
measurements have equal weights, because the code sorts by weight with
Python's stable sort, which preserves the input order among ties. -/
theorem blend_order_independent (cfg : FusionConfig) (w : SourceData → ℚ)
    (now : ℤ) (lat lon : ℚ) (l l' : List SourceData) (h : List.Perm l l') :
    (blend cfg w now lat lon l).1.current.aqi =
      (blend cfg w now lat lon l').1.current.aqi ∧
    (blend cfg w now lat lon l).1.current.category =
      (blend cfg w now lat lon l').1.current.category ∧
    (blend cfg w now lat lon l).1.current.pollutants =
      (blend cfg w now lat lon l').1.current.pollutants ∧
    (blend cfg w now lat lon l).1.current.sources =
      (blend cfg w now lat lon l').1.current.sources ∧
    (blend cfg w now lat lon l).1.current.lastUpdated =
      (blend cfg w now lat lon l').1.current.lastUpdated ∧
    (blend cfg w now lat lon l).1.error = (blend cfg w now lat lon l').1.error ∧
    (blend cfg w now lat lon l).2 = (blend cfg w now lat lon l').2 ∧
    List.Perm (blend cfg w now lat lon l).1.sourceDetails
      (blend cfg w now lat lon l').1.sourceDetails := by
  have hfil := h.filter (fun sd => isDataFresh now sd.timestamp cfg.maxDataAgeHours)
  by_cases hE : l.filter (fun sd => isDataFresh now sd.timestamp cfg.maxDataAgeHours) = []
  · have hE' : l'.filter (fun sd => isDataFresh now sd.timestamp cfg.maxDataAgeHours) = [] := by
      rw [hE] at hfil
      exact (hfil.symm).eq_nil
    rw [blend_eq_default cfg w now lat lon l hE, blend_eq_default cfg w now lat lon l' hE']
    exact ⟨rfl, rfl, rfl, rfl, rfl, rfl, rfl, List.Perm.refl _⟩
  · have hE' : l'.filter (fun sd => isDataFresh now sd.timestamp cfg.maxDataAgeHours) ≠ [] := by
      intro hc
      rw [hc] at hfil
      exact hE hfil.eq_nil
    have hw := weighted_perm w hfil
    have haqi := blendAqi_perm hw
    have hpol := blendPollutants_perm hw
    have hsrc := List.toFinset_eq_of_perm _ _ (hw.map fun p => p.1.source)
    have hlast := maxTimestamp_perm hw
    rw [blend_eq_blendMain cfg w now lat lon l hE, blend_eq_blendMain cfg w now lat lon l' hE']
    refine ⟨?_, ?_, ?_, ?_, ?_, ?_, ?_, ?_⟩
    · rw [blendMain_aqi, blendMain_aqi, haqi]
    · rw [blendMain_category, blendMain_category, haqi]
    · rw [blendMain_pollutants, blendMain_pollutants, hpol]
    · rw [blendMain_sources, blendMain_sources, hsrc]
    · rw [blendMain_lastUpdated, blendMain_lastUpdated, hlast]
    · rw [blendMain_error, blendMain_error]
    · rw [blendMain_cache, blendMain_cache, haqi, hpol, hsrc]
    · rw [blendMain_sourceDetails, blendMain_sourceDetails]
      exact (sortByWeightDesc_perm _).trans
        ((hw.map mkSourceDetail).trans (sortByWeightDesc_perm _).symm)

/-- Claim C1, witness: swapping two fresh measurements leaves the blended
aqi, category, pollutants, sources, cache write unchanged and permutes the
details. -/
theorem blend_order_independent_witness :
    (blend {} (fun _ => 1) 0 0 0 [mAqi "A" (some 10), mAqi "B" (some 20)]).1.current.aqi =
      (blend {} (fun _ => 1) 0 0 0 [mAqi "B" (some 20), mAqi "A" (some 10)]).1.current.aqi ∧
    (blend {} (fun _ => 1) 0 0 0 [mAqi "A" (some 10), mAqi "B" (some 20)]).2 =
      (blend {} (fun _ => 1) 0 0 0 [mAqi "B" (some 20), mAqi "A" (some 10)]).2 ∧
    List.Perm
      (blend {} (fun _ => 1) 0 0 0 [mAqi "A" (some 10), mAqi "B" (some 20)]).1.sourceDetails
      (blend {} (fun _ => 1) 0 0 0 [mAqi "B" (some 20), mAqi "A" (some 10)]).1.sourceDetails :=
  ⟨(blend_order_independent {} (fun _ => 1) 0 0 0 _ _
      (List.Perm.swap (mAqi "B" (some 20)) (mAqi "A" (some 10)) [])).1,
    (blend_order_independent {} (fun _ => 1) 0 0 0 _ _
      (List.Perm.swap (mAqi "B" (some 20)) (mAqi "A" (some 10)) [])).2.2.2.2.2.2.1,
    (blend_order_independent {} (fun _ => 1) 0 0 0 _ _
      (List.Perm.swap (mAqi "B" (some 20)) (mAqi "A" (some 10)) [])).2.2.2.2.2.2.2⟩

/-- Claim C1, counterexample to full equality of the responses: with two
equal-weight measurements the stable descending sort keeps the input order
among ties, so swapping the inputs swaps the source_details rows and the two
responses differ as dicts. -/
theorem blend_order_counterexample :
    blend {} (fun _ => 1) 0 0 0 [mAqi "A" (some 10), mAqi "B" (some 20)] ≠
      blend {} (fun _ => 1) 0 0 0 [mAqi "B" (some 20), mAqi "A" (some 10)] := by
  have hA :
      (blend {} (fun _ => 1) 0 0 0
        [mAqi "A" (some 10), mAqi "B" (some 20)]).1.sourceDetails.map SourceDetail.source =
        ["A", "B"] := by
    rw [blend_eq_blendMain _ _ _ _ _ _ (by decide), blendMain_sourceDetails]
    norm_num [weighted, mkSourceDetail, mAqi, isDataFresh, sortByWeightDesc, insertByWeightDesc]
  have hB :
      (blend {} (fun _ => 1) 0 0 0
        [mAqi "B" (some 20), mAqi "A" (some 10)]).1.sourceDetails.map SourceDetail.source =
        ["B", "A"] := by
    rw [blend_eq_blendMain _ _ _ _ _ _ (by decide), blendMain_sourceDetails]
    norm_num [weighted, mkSourceDetail, mAqi, isDataFresh, sortByWeightDesc, insertByWeightDesc]
  intro hEq
  rw [hEq, hB] at hA
  simp at hA

/-- Claim C7, amended: the past-timestamp filter exists only in the
persistence step (_store_forecasts): every ForecastData row it stores has a
timestamp at least the current clock.  The bucketing and aggregation run on
the original input list with no such filter, so returned aggregated buckets
can derive from past-timestamped points (see the counterexample). -/
theorem storeForecasts_skip_past (now : ℤ) (lat lon : ℚ)
    (l : List ForecastPoint) (r : ForecastRecord)
    (hr : r ∈ storeForecasts now lat lon l) : now ≤ r.forecastTimestamp := by
  unfold storeForecasts at hr
  rcases List.mem_filterMap.mp hr with ⟨f, _, hmap⟩
  cases hts : f.timestamp with
  | none => rw [hts] at hmap; simp at hmap
  | some ts =>
      rw [hts] at hmap
      dsimp only at hmap
      by_cases hlt : ts < now
      · rw [if_pos hlt] at hmap
        simp at hmap
      · rw [if_neg hlt] at hmap
        obtain rfl := Option.some.inj hmap
        exact le_of_not_lt hlt

/-- Claim C7, witness: a future-timestamped point is persisted with its own
timestamp, which is at least the clock value. -/
theorem storeForecasts_skip_past_witness :
    (0 : ℤ) ≤
      ({ lat := 0, lon := 0, forecastTimestamp := 50, aqi := 5, category := "Good",
          pollutants := [], source := "UNKNOWN", confidenceLevel := "medium" } :
        ForecastRecord).forecastTimestamp :=
  storeForecasts_skip_past 0 0 0
    [{ timestamp := some 50, aqi := some 5, pollutants := [], source := none }] _
    (by decide)

/-- Claim C7, counterexample to the claim as stated: a lone forecast point
two hours in the past is not dropped before bucketing -- it yields an
aggregated bucket with its own AQI (the claim would require the returned
bucket list to be empty); only the persisted row list drops it. -/
theorem forecast_past_counterexample :
    (0 : ℤ) < 7200 ∧
    (aggregateForecasts 7200 0 0
      [{ timestamp := some 0, aqi := some 42, pollutants := [], source := some "S" }]).1 =
      [] ∧
    (aggregateForecasts 7200 0 0
      [{ timestamp := some 0, aqi := some 42, pollutants := [], source := some "S" }]).2.map
        AggBucket.aqi = [42] := by
  refine ⟨by norm_num, by decide, ?_⟩
  simp only [aggregateForecasts, List.isEmpty_cons, Bool.false_eq_true, if_false,
    List.filterMap_cons, List.filterMap_nil, Option.map_some, hourKey,
    List.dedup_cons_of_not_mem, List.dedup_nil, sortAsc, insertAsc]
  norm_num
  simp only [aggregateHour, List.filterMap_cons, List.filterMap_nil, List.isEmpty_cons,
    Bool.false_eq_true, if_false, List.map_cons, List.map_nil, List.sum_cons, List.sum_nil,
    List.length_cons, List.length_nil]
  norm_num [pyRound]

end AirQuality
